import Mathlib

/-!
Verification of the session-protocol layer of the mcp-debug repository.

This file shallowly embeds the Go code of the repository and proves the
frozen claims about it.  The relevant code:

* `debugger/session.go` — the `Session` actor (read loop plus the
  event-absorbing `Receive` handler).
* the legacy root-package `Session` (`src/unnamed/part_011`) whose
  `Receive` returns the first channel item, event or not.
* `RetryWithBackoff` (`src/unnamed/part_009`).
* the typed DAP helpers (`debugger/dap_api.go`, the launch-mode deriving
  version of `LaunchProgram` appearing at `src/debugger/dap_execution_test.go`
  lines 424-727, `dap_external.go` `SetBreakpoints` / `SetFunctionBreakpoints`,
  control helpers `Continue` / `Next`).
* the `debugger` factory actor (`debugger.go`).

Go channels are modelled by explicit lists of delivered items, goroutine
interleaving by the order of that list, and `context.Context` cancellation
by explicit boolean-valued functions saying at which suspension point the
context was observed as done.
-/

/-! ## DAP message model

`go-dap` messages are classified by the read loop into response-shaped
(`dap.ResponseMessage`, which includes `*dap.ErrorResponse`) and
event-shaped (`dap.EventMessage`) messages; anything else is logged and
dropped.  We model only the structure the claims are about: the concrete
response type (for the type assertions of the typed helpers, with the
error response carrying the backend message and numeric id) and the
concrete event type (for the event `switch` in `Session.Receive`).
-/

/-- Event-shaped DAP messages (`dap.EventMessage`), by concrete type. -/
inductive EventMsg where
  | output (text : String)
  | stopped (threadId : Int) (reason : String)
  | terminated
  | exited
  | otherEvent (name : String)
  deriving DecidableEq, Repr

/-- Response-shaped DAP messages (`dap.ResponseMessage`), by concrete type.
`errorResp` is `*dap.ErrorResponse` carrying `Body.Error.Format` and
`Body.Error.Id`. -/
inductive RespMsg where
  | initializeResp
  | launchResp
  | attachResp
  | configDoneResp
  | setBreakpointsResp
  | setFunctionBreakpointsResp
  | continueResp
  | nextResp
  | stepInResp
  | stepOutResp
  | pauseResp
  | errorResp (format : String) (id : Int)
  | otherResp (name : String)
  deriving DecidableEq, Repr

/-- A decoded DAP protocol message as classified by the read loop:
response-shaped, event-shaped, or neither (the `default` branch of the
type switch in `readLoop`, which logs and drops). -/
inductive DapMsg where
  | resp (r : RespMsg)
  | event (e : EventMsg)
  | neither (name : String)
  deriving DecidableEq, Repr

/-- The Go `%T` rendering of a message held in a `DAPResponse`, used by the
typed helpers' `fmt.Errorf("unexpected response type: %T", ...)`. -/
def dapTypeName : DapMsg → String
  | .resp .initializeResp => "*dap.InitializeResponse"
  | .resp .launchResp => "*dap.LaunchResponse"
  | .resp .attachResp => "*dap.AttachResponse"
  | .resp .configDoneResp => "*dap.ConfigurationDoneResponse"
  | .resp .setBreakpointsResp => "*dap.SetBreakpointsResponse"
  | .resp .setFunctionBreakpointsResp => "*dap.SetFunctionBreakpointsResponse"
  | .resp .continueResp => "*dap.ContinueResponse"
  | .resp .nextResp => "*dap.NextResponse"
  | .resp .stepInResp => "*dap.StepInResponse"
  | .resp .stepOutResp => "*dap.StepOutResponse"
  | .resp .pauseResp => "*dap.PauseResponse"
  | .resp (.errorResp _ _) => "*dap.ErrorResponse"
  | .resp (.otherResp n) => n
  | .event (.output _) => "*dap.OutputEvent"
  | .event (.stopped _ _) => "*dap.StoppedEvent"
  | .event .terminated => "*dap.TerminatedEvent"
  | .event .exited => "*dap.ExitedEvent"
  | .event (.otherEvent n) => n
  | .neither n => n

/-! ## Session actor: `Receive` (debugger/session.go lines 117-173)

While a call is in flight the read loop is the only producer on the
`responses` / `events` / `errors` channels, and the caller's context may
fire.  One `select` round of the waiting loop therefore sees one of four
kinds of arrivals; a run of the wait is the sequence of arrivals in the
order the `select` statements observed them. -/

/-- One item observed by the `select` in `Session.Receive`'s wait loop. -/
inductive Arrival where
  | response (m : RespMsg)
  | event (e : EventMsg)
  | readErr (err : String)
  | ctxDone (err : String)
  deriving DecidableEq, Repr

/-- Result of a `Session.Receive` call (`fn.Result[*DAPResponse]`).  The
`ok` payload is a full `dap.Message` because the legacy handler can wrap
an event in a `DAPResponse`. -/
inductive CallResult where
  | ok (m : DapMsg)
  | err (e : String)
  deriving DecidableEq, Repr

/-- The wait loop of `Session.Receive` (debugger/session.go lines 129-172):
a response is returned as the call's result; every event — with the
source's `switch` over `*dap.OutputEvent`, `*dap.StoppedEvent`,
`*dap.TerminatedEvent`/`*dap.ExitedEvent` and the default case, each of
which `continue`s — is absorbed and the loop keeps waiting; a read-loop
error or context cancellation is returned as an error.  `none` means the
arrivals were exhausted with the call still blocked. -/
def receiveWait : List Arrival → Option CallResult
  | [] => none
  | .response m :: _ => some (.ok (.resp m))
  | .event e :: rest =>
    match e with
    | .output _ => receiveWait rest
    | .stopped _ _ => receiveWait rest
    | .terminated => receiveWait rest
    | .exited => receiveWait rest
    | .otherEvent _ => receiveWait rest
  | .readErr e :: _ => some (.err e)
  | .ctxDone e :: _ => some (.err e)

/-- `Session.Receive` (debugger/session.go lines 117-173): write the
request first — a write failure (`writeErr = some e`) returns immediately,
wrapped — then run the wait loop over the arrivals. -/
def sessionReceive (writeErr : Option String) (arrivals : List Arrival) :
    Option CallResult :=
  match writeErr with
  | some e => some (.err ("error writing DAP message: " ++ e))
  | none => receiveWait arrivals

/-! ## Legacy root-package `Session.Receive` (src/unnamed/part_011 lines 104-129)

A single `select` with no loop: whichever channel fires first decides the
call's result, and an event is wrapped in a successful `DAPResponse`. -/

/-- The legacy `Session.Receive` of the root `mcpdebug` package: one
`select`; the first arrival decides, and an event is returned as `Ok`. -/
def legacyReceive (writeErr : Option String) (arrivals : List Arrival) :
    Option CallResult :=
  match writeErr with
  | some e => some (.err ("error writing DAP message: " ++ e))
  | none =>
    match arrivals with
    | [] => none
    | .response m :: _ => some (.ok (.resp m))
    | .event e :: _ => some (.ok (.event e))
    | .readErr e :: _ => some (.err e)
    | .ctxDone e :: _ => some (.err e)

/-! ## Transport read loop (debugger/session.go lines 69-114)

`readLoop` repeatedly decodes a message from the connection.  A decode
either yields a message, fails with `io.EOF`, or fails with another
error.  We model the wire as the list of successive decode outcomes and
record what the loop pushes onto each channel before terminating.  The
model covers runs in which the quit signal does not fire (the in-flight
call scenario of the claims); a fired quit signal only makes the loop
return earlier without pushing. -/

/-- Outcome of one `dap.ReadProtocolMessage` call. -/
inductive DecodeOutcome where
  | msg (m : DapMsg)
  | eof
  | fail (e : String)
  deriving DecidableEq, Repr

/-- What a terminated read loop pushed onto the three channels, in order. -/
structure ReadLoopOut where
  responses : List RespMsg
  events : List EventMsg
  errors : List String
  deriving DecidableEq, Repr

/-- `Session.readLoop` (debugger/session.go lines 69-114) over a finite
decode stream, with the quit signal never firing: a successful decode is
classified by the type switch (responses and events are pushed to their
channels, anything else is logged and dropped) and the loop continues; an
`io.EOF` terminates the loop silently; any other decode error pushes
`fmt.Errorf("error reading DAP message: %w", err)` onto the error channel
and terminates the loop, so nothing after it is processed. -/
def readLoopRun : List DecodeOutcome → ReadLoopOut
  | [] => { responses := [], events := [], errors := [] }
  | .eof :: _ => { responses := [], events := [], errors := [] }
  | .fail e :: _ =>
    { responses := [], events := [],
      errors := ["error reading DAP message: " ++ e] }
  | .msg m :: rest =>
    let out := readLoopRun rest
    match m with
    | .resp r => { out with responses := r :: out.responses }
    | .event e => { out with events := e :: out.events }
    | .neither _ => out

/-! ## Retry helper (src/unnamed/part_009, `RetryWithBackoff`)

Delays are modelled as rationals (Go durations are integer nanosecond
counts and the multiplier is a `float64`; the infinite-precision rational
product stands in for `time.Duration(float64(delay) * config.Multiplier)`).
The fallible operation is a function from the 1-based attempt number to
`none` (success) or `some msg` (failure).  The context is modelled by two
predicates: `doneAtCheck k` — the non-blocking `ctx.Done()` check at the
top of the loop body of attempt `k` observed a cancelled context — and
`doneInSleep k` — the context fired before the timer during the backoff
sleep following attempt `k`. -/

/-- `RetryConfig` (src/unnamed/part_009 lines 10-15). -/
structure RetryConfig where
  maxAttempts : Nat
  initialDelay : ℚ
  maxDelay : ℚ
  multiplier : ℚ
  deriving DecidableEq, Repr

/-- `DefaultRetryConfig` (src/unnamed/part_009 lines 18-23); delays in
nanoseconds. -/
def DefaultRetryConfig : RetryConfig :=
  { maxAttempts := 5
    initialDelay := 10000000
    maxDelay := 500000000
    multiplier := 2 }

/-- Result of a `RetryWithBackoff` run.  `exhausted n lastErr` is the
final `fmt.Errorf("operation failed after %d attempts, last error: %w",
config.MaxAttempts, lastErr)`; `lastErr` is `none` when no attempt ever
ran (then `%w` wraps a nil error). -/
inductive RetryResult where
  | okR
  | exhausted (attempts : Nat) (lastErr : Option String)
  | ctxError
  deriving DecidableEq, Repr

/-- The error text of an exhausted retry. -/
def retryErrText (attempts : Nat) (lastErr : Option String) : String :=
  "operation failed after " ++ toString attempts ++
    " attempts, last error: " ++
    (match lastErr with
     | some e => e
     | none => "%!w(<nil>)")

/-- Observable trace of a `RetryWithBackoff` run: its result, the number
of times `operation` was invoked, and the backoff delays actually slept,
in order. -/
structure RetryTrace where
  result : RetryResult
  calls : Nat
  sleeps : List ℚ
  deriving DecidableEq, Repr

/-- The delay update after a sleep (src/unnamed/part_009 lines 57-60):
multiply by the multiplier, then cap at `MaxDelay`. -/
def nextDelay (maxDelay multiplier d : ℚ) : ℚ :=
  let d2 := d * multiplier
  if d2 > maxDelay then maxDelay else d2

/-- The `for attempt := 1; attempt <= config.MaxAttempts; attempt++` loop
of `RetryWithBackoff` (src/unnamed/part_009 lines 30-61).  `attempt` is
the current 1-based attempt number, `remaining` the number of loop
iterations still permitted (`config.MaxAttempts - attempt + 1`),
`delay` the current backoff delay and `lastErr` the last failure seen. -/
def retryLoop (op : Nat → Option String) (doneAtCheck doneInSleep : Nat → Bool)
    (maxAttempts : Nat) (maxDelay multiplier : ℚ) :
    Nat → Nat → ℚ → Option String → RetryTrace
  | 0, _, _, lastErr =>
    { result := .exhausted maxAttempts lastErr, calls := 0, sleeps := [] }
  | remaining + 1, attempt, delay, _lastErr =>
    if doneAtCheck attempt then
      { result := .ctxError, calls := 0, sleeps := [] }
    else
      match op attempt with
      | none => { result := .okR, calls := 1, sleeps := [] }
      | some e =>
        if remaining = 0 then
          -- attempt == config.MaxAttempts: break without sleeping
          { result := .exhausted maxAttempts (some e), calls := 1,
            sleeps := [] }
        else if doneInSleep attempt then
          { result := .ctxError, calls := 1, sleeps := [] }
        else
          let t := retryLoop op doneAtCheck doneInSleep maxAttempts maxDelay
            multiplier remaining (attempt + 1)
            (nextDelay maxDelay multiplier delay) (some e)
          { result := t.result, calls := t.calls + 1,
            sleeps := delay :: t.sleeps }

/-- `RetryWithBackoff` (src/unnamed/part_009 lines 26-64). -/
def RetryWithBackoff (config : RetryConfig) (op : Nat → Option String)
    (doneAtCheck doneInSleep : Nat → Bool) : RetryTrace :=
  retryLoop op doneAtCheck doneInSleep config.maxAttempts config.maxDelay
    config.multiplier config.maxAttempts 1 config.initialDelay none

/-- The expected sequence of `k` successive backoff delays starting from
`d`: each sleep uses the current delay, which is then multiplied and
capped. -/
def delaySeq (maxDelay multiplier : ℚ) (d : ℚ) : Nat → List ℚ
  | 0 => []
  | k + 1 => d :: delaySeq maxDelay multiplier (nextDelay maxDelay multiplier d) k

/-! ## String helpers

Executable models of `strings.HasSuffix` and `strings.Contains`, written
over character lists so that concrete instances reduce by `decide`. -/

/-- Does the first list start with the second (`strings.HasPrefix` on
character lists)? -/
def charsStartWith : List Char → List Char → Bool
  | _, [] => true
  | [], _ :: _ => false
  | a :: as, b :: bs => a == b && charsStartWith as bs

/-- Does the pattern occur contiguously somewhere in the list? -/
def charsContainSeq (pat : List Char) : List Char → Bool
  | [] => charsStartWith [] pat
  | a :: as => charsStartWith (a :: as) pat || charsContainSeq pat as

/-- `strings.Contains s pat`. -/
def strContains (s pat : String) : Bool :=
  charsContainSeq pat.toList s.toList

/-- `strings.HasSuffix s pat`. -/
def strEndsWith (s pat : String) : Bool :=
  charsStartWith s.toList.reverse pat.toList.reverse

/-! ## Launch configuration and `LaunchProgram`

`LaunchConfig` is `dap.go` lines 100-129.  Two versions of
`debugger.LaunchProgram` appear in the sources: the mode-deriving one
(`src/debugger/dap_execution_test.go` lines 478-597, the version §4.5 of
the spec describes) and an older one (`src/debugger/dap_api.go` lines
53-117) that hardcodes mode `"debug"` and never injects build flags.
Both are embedded.  The launch payload is the `launchArgs`
`map[string]interface{}`; optional keys are `Option`s (absent = `none`).
The `os.Stat`-executable probe of the deriving version is an IO action
and enters the model as the boolean parameter `statSaysExecutable`
(the result of `fileInfo.Mode()&0111 != 0` when `os.Stat` succeeds,
`false` when it fails). -/

/-- `LaunchConfig` (dap.go lines 100-129). -/
structure LaunchConfig where
  name : String
  program : String
  args : List String
  env : List String
  workingDir : String
  stopOnEntry : Bool
  buildFlags : List String
  deriving DecidableEq, Repr

/-- The `len(config.Args) > 0 && strings.Contains(config.Args[0], "-test.")`
test of the mode derivation (src/debugger/dap_execution_test.go line 489). -/
def firstArgHasTestFlag : List String → Bool
  | [] => false
  | a :: _ => strContains a "-test."

/-- The launch-mode derivation of the mode-deriving `LaunchProgram`
(src/debugger/dap_execution_test.go lines 481-507): `.test`-suffixed or
`__debug_bin`-containing program → `"exec"`; else a test file
(`_test.go` suffix, `.test` suffix, or first argument containing
`-test.`) → `"test"`; else a non-`.go` path that stats as an executable
file → `"exec"`; otherwise `"debug"`. -/
def launchMode (program : String) (args : List String)
    (statSaysExecutable : Bool) : String :=
  let isTest := strEndsWith program "_test.go" || strEndsWith program ".test" ||
    firstArgHasTestFlag args
  if strEndsWith program ".test" || strContains program "__debug_bin" then
    "exec"
  else if isTest || strEndsWith program "_test.go" then
    "test"
  else if !strEndsWith program ".go" then
    if statSaysExecutable then "exec" else "debug"
  else
    "debug"

/-- The `hasDebugFlags` scan of the mode-deriving `LaunchProgram`
(src/debugger/dap_execution_test.go lines 541-547). -/
def hasDebugFlags (flags : List String) : Bool :=
  flags.any fun f => strContains f "-gcflags" || strContains f "-N -l"

/-- The build-flag shaping of the mode-deriving `LaunchProgram`
(src/debugger/dap_execution_test.go lines 537-555): outside exec mode,
when no supplied flag contains `-gcflags` or `-N -l`, prepend the
auto-injected `["-gcflags", "all=-N -l"]`. -/
def launchBuildFlags (mode : String) (flags : List String) : List String :=
  if mode == "exec" then flags
  else if hasDebugFlags flags then flags
  else ["-gcflags", "all=-N -l"] ++ flags

/-- The `launchArgs` payload of a launch request. -/
structure LaunchArgs where
  name : String
  typ : String
  request : String
  mode : String
  program : String
  args : Option (List String)
  env : Option (List String)
  cwd : Option String
  stopOnEntry : Option Bool
  buildFlags : Option (List String)
  deriving DecidableEq, Repr

/-- The payload constructed by the mode-deriving `LaunchProgram`
(src/debugger/dap_execution_test.go lines 478-576). -/
def LaunchProgramArgs (config : LaunchConfig) (statSaysExecutable : Bool) :
    LaunchArgs :=
  let mode := launchMode config.program config.args statSaysExecutable
  let flags := launchBuildFlags mode config.buildFlags
  { name := config.name
    typ := "go"
    request := "launch"
    mode := mode
    program := config.program
    args := if config.args.length > 0 then some config.args else none
    env := if config.env.length > 0 then some config.env else none
    cwd := if config.workingDir == "" then none else some config.workingDir
    stopOnEntry := if config.stopOnEntry then some true else none
    buildFlags := if flags.length > 0 then some flags else none }

/-- The payload constructed by the older `LaunchProgram`
(src/debugger/dap_api.go lines 53-117): mode is the literal `"debug"`
and the caller's build flags are passed through unchanged. -/
def LaunchProgramArgsLegacy (config : LaunchConfig) : LaunchArgs :=
  { name := config.name
    typ := "go"
    request := "launch"
    mode := "debug"
    program := config.program
    args := if config.args.length > 0 then some config.args else none
    env := if config.env.length > 0 then some config.env else none
    cwd := if config.workingDir == "" then none else some config.workingDir
    stopOnEntry := if config.stopOnEntry then some true else none
    buildFlags :=
      if config.buildFlags.length > 0 then some config.buildFlags else none }

/-- Modelled from the claim's words (refinement comparison only): the
launch mode as the claim states it — "a path ending in a pre-built-binary
suffix yields the exec mode, a `_test.go`-suffixed path (or
test-flag-bearing arguments) yields the test mode, and any other path
yields the debug mode", reading both `.test` and `__debug_bin` as known
pre-built-binary suffixes. -/
def claimedLaunchMode (program : String) (args : List String) : String :=
  if strEndsWith program ".test" || strEndsWith program "__debug_bin" then
    "exec"
  else if strEndsWith program "_test.go" || firstArgHasTestFlag args then
    "test"
  else
    "debug"

/-! ## Breakpoint descriptors and the set-breakpoints helpers

`BreakpointLocation` / `FunctionBreakpoint` are dap.go lines 148-185.
`SetBreakpoints` and `SetFunctionBreakpoints` are dap_external.go lines
878-935 and 940-980; `SetSourceBreakpoints` / `SetSimpleFunctionBreakpoints`
are debugger/dap_api.go lines 212-242.  Each helper is split into its
pure request-construction part and the request it hands to the session
actor; a validation failure returns before any request exists. -/

/-- `BreakpointLocation` (dap.go lines 148-171). -/
structure BreakpointLocation where
  file : String
  line : Int
  column : Int
  condition : String
  hitCondition : String
  logMessage : String
  deriving DecidableEq, Repr

/-- `dap.SourceBreakpoint` as filled in by `SetBreakpoints`
(dap_external.go lines 895-904). -/
structure SourceBreakpoint where
  line : Int
  column : Int
  condition : String
  hitCondition : String
  logMessage : String
  deriving DecidableEq, Repr

/-- The per-location conversion of `SetBreakpoints` (dap_external.go
lines 896-903): every field of the input is preserved. -/
def toSourceBreakpoint (bp : BreakpointLocation) : SourceBreakpoint :=
  { line := bp.line
    column := bp.column
    condition := bp.condition
    hitCondition := bp.hitCondition
    logMessage := bp.logMessage }

/-- The `setBreakpoints` wire request: source path plus the breakpoint
array (dap_external.go lines 906-919). -/
structure SetBreakpointsRequest where
  sourcePath : String
  breakpoints : List SourceBreakpoint
  deriving DecidableEq, Repr

/-- Validation and request construction of `SetBreakpoints`
(dap_external.go lines 878-919): an empty list is rejected with
`"no breakpoints provided"`; a list mentioning a second distinct file is
rejected with `"all breakpoints must be for the same file"`; otherwise
the request carries the first element's file as source path and one
converted breakpoint per input element, in order. -/
def SetBreakpointsBuild :
    List BreakpointLocation → Except String SetBreakpointsRequest
  | [] => .error "no breakpoints provided"
  | b0 :: rest =>
    if rest.all (fun bp => bp.file == b0.file) then
      .ok { sourcePath := b0.file
            breakpoints := (b0 :: rest).map toSourceBreakpoint }
    else
      .error "all breakpoints must be for the same file"

/-- The requests `SetBreakpoints` hands to the session actor: none when
validation fails, exactly the constructed one otherwise. -/
def SetBreakpointsRequests (bps : List BreakpointLocation) :
    List SetBreakpointsRequest :=
  match SetBreakpointsBuild bps with
  | .error _ => []
  | .ok r => [r]

/-- `SetSourceBreakpoints` (debugger/dap_api.go lines 212-225): wrap each
line number in a `BreakpointLocation` with the shared path and Go
zero-valued optional fields, then defer to `SetBreakpoints`. -/
def SetSourceBreakpointsBuild (sourcePath : String) (lines : List Int) :
    Except String SetBreakpointsRequest :=
  SetBreakpointsBuild (lines.map fun line =>
    { file := sourcePath
      line := line
      column := 0
      condition := ""
      hitCondition := ""
      logMessage := "" })

/-- `FunctionBreakpoint` (dap.go lines 173-185). -/
structure FunctionBreakpoint where
  name : String
  condition : String
  hitCondition : String
  deriving DecidableEq, Repr

/-- `dap.FunctionBreakpoint` as filled in by `SetFunctionBreakpoints`
(dap_external.go lines 946-952). -/
structure DapFunctionBreakpoint where
  name : String
  condition : String
  hitCondition : String
  deriving DecidableEq, Repr

/-- The per-entry conversion of `SetFunctionBreakpoints` (dap_external.go
lines 947-951). -/
def toDapFunctionBreakpoint (bp : FunctionBreakpoint) :
    DapFunctionBreakpoint :=
  { name := bp.name, condition := bp.condition,
    hitCondition := bp.hitCondition }

/-- The `setFunctionBreakpoints` wire request (dap_external.go lines
954-964). -/
structure SetFunctionBreakpointsRequest where
  breakpoints : List DapFunctionBreakpoint
  deriving DecidableEq, Repr

/-- Request construction of `SetFunctionBreakpoints` (dap_external.go
lines 940-964): no validation of any kind — the request always exists and
carries one converted entry per input element. -/
def SetFunctionBreakpointsBuild (fbs : List FunctionBreakpoint) :
    SetFunctionBreakpointsRequest :=
  { breakpoints := fbs.map toDapFunctionBreakpoint }

/-- The requests `SetFunctionBreakpoints` hands to the session actor:
always exactly one. -/
def SetFunctionBreakpointsRequests (fbs : List FunctionBreakpoint) :
    List SetFunctionBreakpointsRequest :=
  [SetFunctionBreakpointsBuild fbs]

/-! ## Typed helper response unwrapping

Each typed helper invokes `session.Ask(...).Await(...).Unpack()` and then
type-asserts the returned `dap.Message`.  The unwrap functions below map
the call's outcome (`.error e` for a failed call, `.ok m` for the
delivered message) to the helper's Go return.  `Continue`
(debugger/session.go lines 187-221) has a dedicated `*dap.ErrorResponse`
arm extracting `Body.Error.Format` and `Body.Error.Id`; `Next`
(debugger/session.go lines 225-254) and `InitializeSession`
(debugger/dap_api.go lines 15-48) only have the generic
`fmt.Errorf("unexpected response type: %T", ...)`. -/

/-- The response unwrap of `Continue` (debugger/session.go lines 204-218). -/
def continueUnwrap : Except String DapMsg → Except String RespMsg
  | .error e => .error e
  | .ok m =>
    match m with
    | .resp .continueResp => .ok .continueResp
    | .resp (.errorResp f i) =>
      .error ("continue failed: " ++ f ++ " (id: " ++ toString i ++ ")")
    | other => .error ("unexpected response type: " ++ dapTypeName other)

/-- The response unwrap of `Next` (debugger/session.go lines 242-251):
no error-response arm. -/
def nextUnwrap : Except String DapMsg → Except String RespMsg
  | .error e => .error e
  | .ok m =>
    match m with
    | .resp .nextResp => .ok .nextResp
    | other => .error ("unexpected response type: " ++ dapTypeName other)

/-- The response unwrap of `InitializeSession` (debugger/dap_api.go lines
36-45): no error-response arm. -/
def initializeUnwrap : Except String DapMsg → Except String RespMsg
  | .error e => .error e
  | .ok m =>
    match m with
    | .resp .initializeResp => .ok .initializeResp
    | other => .error ("unexpected response type: " ++ dapTypeName other)

/-- The response unwrap of `StepIn` (debugger/session.go lines 280-284):
no error-response arm. -/
def stepInUnwrap : Except String DapMsg → Except String RespMsg
  | .error e => .error e
  | .ok m =>
    match m with
    | .resp .stepInResp => .ok .stepInResp
    | other => .error ("unexpected response type: " ++ dapTypeName other)

/-- The response unwrap of `StepOut` (debugger/session.go lines 313-317):
no error-response arm. -/
def stepOutUnwrap : Except String DapMsg → Except String RespMsg
  | .error e => .error e
  | .ok m =>
    match m with
    | .resp .stepOutResp => .ok .stepOutResp
    | other => .error ("unexpected response type: " ++ dapTypeName other)

/-- The response unwrap of `Pause` (debugger/session.go lines 346-350):
no error-response arm. -/
def pauseUnwrap : Except String DapMsg → Except String RespMsg
  | .error e => .error e
  | .ok m =>
    match m with
    | .resp .pauseResp => .ok .pauseResp
    | other => .error ("unexpected response type: " ++ dapTypeName other)

/-- The response unwrap of `ConfigurationDone` (debugger/dap_api.go lines
201-205): no error-response arm. -/
def configDoneUnwrap : Except String DapMsg → Except String RespMsg
  | .error e => .error e
  | .ok m =>
    match m with
    | .resp .configDoneResp => .ok .configDoneResp
    | other => .error ("unexpected response type: " ++ dapTypeName other)

/-- The response unwrap of `SetBreakpoints` (dap_external.go lines
928-932): no error-response arm. -/
def setBreakpointsUnwrap : Except String DapMsg → Except String RespMsg
  | .error e => .error e
  | .ok m =>
    match m with
    | .resp .setBreakpointsResp => .ok .setBreakpointsResp
    | other => .error ("unexpected response type: " ++ dapTypeName other)

/-- The response unwrap of `SetFunctionBreakpoints` (dap_external.go
lines 973-977): no error-response arm. -/
def setFunctionBreakpointsUnwrap :
    Except String DapMsg → Except String RespMsg
  | .error e => .error e
  | .ok m =>
    match m with
    | .resp .setFunctionBreakpointsResp => .ok .setFunctionBreakpointsResp
    | other => .error ("unexpected response type: " ++ dapTypeName other)

/-- The response unwrap of the updated `LaunchProgram`
(src/debugger/dap_execution_test.go lines 585-594): a dedicated
`*dap.ErrorResponse` arm extracts the backend message and id. -/
def launchUnwrap : Except String DapMsg → Except String RespMsg
  | .error e => .error e
  | .ok m =>
    match m with
    | .resp .launchResp => .ok .launchResp
    | .resp (.errorResp f i) =>
      .error ("launch failed: " ++ f ++ " (id: " ++ toString i ++ ")")
    | other => .error ("unexpected response type: " ++ dapTypeName other)

/-- The response unwrap of the updated `AttachToProcess`
(src/debugger/dap_execution_test.go lines 648-657): a dedicated
`*dap.ErrorResponse` arm extracts the backend message and id. -/
def attachUnwrap : Except String DapMsg → Except String RespMsg
  | .error e => .error e
  | .ok m =>
    match m with
    | .resp .attachResp => .ok .attachResp
    | .resp (.errorResp f i) =>
      .error ("attach failed: " ++ f ++ " (id: " ++ toString i ++ ")")
    | other => .error ("unexpected response type: " ++ dapTypeName other)

/-! ## The debugger factory actor (debugger.go)

`debugger.Receive` handles `StartDebuggerCmd` and `CreateSessionCmd`
with identical bodies: create a session (`NewSession`, whose success or
failure we pass in as a parameter), then — only on success — increment
`nextSessionID`, build the identifier `fmt.Sprintf("session-%d", ...)`,
and register the session actor under it.  Any other command returns an
error. -/

/-- The command variants dispatched by `debugger.Receive` (debugger.go
lines 33-86). -/
inductive DebuggerCmdKind where
  | startDebugger
  | createSession
  | unknownCmd (typeName : String)
  deriving DecidableEq, Repr

/-- The factory actor's state: the `nextSessionID` counter (debugger.go
line 14), zero-initialised by `newDebugger` / `NewDebugger`. -/
structure FactoryState where
  nextSessionID : Nat
  deriving DecidableEq, Repr

/-- The session identifier string `fmt.Sprintf("session-%d", n)`
(debugger.go lines 43 and 68). -/
def mkSessionId (n : Nat) : String := "session-" ++ toString n

/-- A `DebuggerResp` as seen by the factory's caller. -/
inductive FactoryResp where
  | created (id : String)
  | errResp (e : String)
  deriving DecidableEq, Repr

/-- The observable effect of one `debugger.Receive` invocation: the new
state, the reply, and the session identifiers registered with the actor
system during the call. -/
structure FactoryStep where
  state : FactoryState
  resp : FactoryResp
  registered : List String
  deriving DecidableEq, Repr

/-- `debugger.Receive` (debugger.go lines 32-87).  `newSession` is the
outcome of the `NewSession()` call performed for a creation command. -/
def debuggerReceive (st : FactoryState) (cmd : DebuggerCmdKind)
    (newSession : Except String Unit) : FactoryStep :=
  match cmd with
  | .startDebugger =>
    match newSession with
    | .error e =>
      { state := st, resp := .errResp ("could not create session: " ++ e),
        registered := [] }
    | .ok _ =>
      let n := st.nextSessionID + 1
      { state := { nextSessionID := n }, resp := .created (mkSessionId n),
        registered := [mkSessionId n] }
  | .createSession =>
    match newSession with
    | .error e =>
      { state := st, resp := .errResp ("could not create session: " ++ e),
        registered := [] }
    | .ok _ =>
      let n := st.nextSessionID + 1
      { state := { nextSessionID := n }, resp := .created (mkSessionId n),
        registered := [mkSessionId n] }
  | .unknownCmd tn =>
    { state := st, resp := .errResp ("unknown command type: " ++ tn),
      registered := [] }

/-- A sequence of `debugger.Receive` invocations on one factory instance:
returns the final state and all registered identifiers in order. -/
def factoryRun (st : FactoryState) :
    List (DebuggerCmdKind × Except String Unit) → FactoryState × List String
  | [] => (st, [])
  | (cmd, ns) :: rest =>
    let step := debuggerReceive st cmd ns
    let r := factoryRun step.state rest
    (r.1, step.registered ++ r.2)

/-- How many commands of a run are session creations that succeeded. -/
def successCount : List (DebuggerCmdKind × Except String Unit) → Nat
  | [] => 0
  | (cmd, ns) :: rest =>
    (match cmd, ns with
     | .startDebugger, .ok _ => 1
     | .createSession, .ok _ => 1
     | _, _ => 0) + successCount rest

/-! ## Injectivity of the session-id rendering

`fmt.Sprintf("session-%d", n)` is modelled by `mkSessionId`, which uses
Lean's decimal rendering `toString = Nat.repr` for `%d`.  To show distinct
counters give distinct identifier strings we prove `Nat.repr` injective
by exhibiting the digit-string decoder as a left inverse. -/

/-- The decimal digit list of `n`, most significant first: the value
`Nat.toDigitsCore` computes once its fuel suffices. -/
def natChars (n : Nat) : List Char :=
  if n < 10 then [Nat.digitChar n]
  else natChars (n / 10) ++ [Nat.digitChar (n % 10)]
termination_by n
decreasing_by exact Nat.div_lt_self (by omega) (by omega)

/-- One decoding step: shift the accumulator and add the digit value. -/
def decodeStep (acc : Nat) (c : Char) : Nat :=
  acc * 10 + (c.toNat - '0'.toNat)

theorem toDigitsCore_eq_natChars :
    ∀ (fuel n : Nat) (ds : List Char), n < fuel →
      Nat.toDigitsCore 10 fuel n ds = natChars n ++ ds := by
  intro fuel
  induction fuel with
  | zero => intro n ds h; omega
  | succ f ih =>
    intro n ds h
    by_cases h10 : n < 10
    · have hdiv : n / 10 = 0 := Nat.div_eq_of_lt h10
      have hmod : n % 10 = n := Nat.mod_eq_of_lt h10
      simp only [Nat.toDigitsCore, hdiv, hmod, if_pos]
      rw [natChars]
      simp [h10]
    · have hdiv : ¬ n / 10 = 0 := by omega
      simp only [Nat.toDigitsCore, if_neg hdiv]
      rw [ih (n / 10) _ (by omega)]
      conv_rhs => rw [natChars]
      simp [h10]

theorem digitChar_decode (d : Nat) (h : d < 10) :
    (Nat.digitChar d).toNat - '0'.toNat = d := by
  interval_cases d <;> rfl

theorem foldl_decodeStep_natChars (n : Nat) :
    ∀ acc : Nat,
      (natChars n).foldl decodeStep acc =
        acc * 10 ^ (natChars n).length + n := by
  induction n using Nat.strong_induction_on with
  | _ n ih =>
    intro acc
    by_cases h10 : n < 10
    · rw [natChars]
      simp only [if_pos h10, List.foldl_cons, List.foldl_nil,
        List.length_cons, List.length_nil, decodeStep]
      rw [digitChar_decode n h10]
      ring
    · have hlt : n / 10 < n := Nat.div_lt_self (by omega) (by omega)
      have hlen : (natChars n).length = (natChars (n / 10)).length + 1 := by
        conv_lhs => rw [natChars]
        simp [h10]
      conv_lhs => rw [natChars]
      simp only [if_neg h10, List.foldl_append, List.foldl_cons,
        List.foldl_nil]
      rw [ih (n / 10) hlt acc, hlen]
      show (acc * 10 ^ (natChars (n / 10)).length + n / 10) * 10 +
          ((Nat.digitChar (n % 10)).toNat - '0'.toNat) =
        acc * 10 ^ ((natChars (n / 10)).length + 1) + n
      rw [digitChar_decode (n % 10) (Nat.mod_lt n (by omega))]
      rw [pow_succ, ← mul_assoc]
      have hdm : 10 * (n / 10) + n % 10 = n := Nat.div_add_mod n 10
      generalize acc * 10 ^ (natChars (n / 10)).length = A
      omega

theorem natChars_injective : Function.Injective natChars := by
  intro a b h
  have ha := foldl_decodeStep_natChars a 0
  have hb := foldl_decodeStep_natChars b 0
  rw [h] at ha
  simp only [Nat.zero_mul] at ha hb
  omega

theorem natRepr_injective : Function.Injective Nat.repr := by
  intro a b h
  apply natChars_injective
  have hta : Nat.toDigits 10 a = natChars a := by
    have := toDigitsCore_eq_natChars (a + 1) a [] (by omega)
    simpa [Nat.toDigits] using this
  have htb : Nat.toDigits 10 b = natChars b := by
    have := toDigitsCore_eq_natChars (b + 1) b [] (by omega)
    simpa [Nat.toDigits] using this
  have hrepr : (natChars a).asString = (natChars b).asString := by
    simpa [Nat.repr, hta, htb] using h
  have hdata : (natChars a).asString.data = (natChars b).asString.data :=
    congrArg String.data hrepr
  simpa [List.asString] using hdata

theorem mkSessionId_injective : Function.Injective mkSessionId := by
  intro a b h
  apply natRepr_injective
  have h2 : ("session-" ++ Nat.repr a) = ("session-" ++ Nat.repr b) := h
  have h3 : "session-".data ++ (Nat.repr a).data =
      "session-".data ++ (Nat.repr b).data := by
    have := congrArg String.data h2
    simpa [String.data_append] using this
  exact String.ext (List.append_cancel_left h3)

/-! ## Session actor lemmas -/

/-- Any run of event arrivals is absorbed: the wait continues exactly as
if they had not been delivered. -/
theorem receiveWait_absorb_events (evs : List EventMsg) (rest : List Arrival) :
    receiveWait (evs.map Arrival.event ++ rest) = receiveWait rest := by
  induction evs with
  | nil => rfl
  | cons e tl ih => cases e <;> simpa [receiveWait] using ih

/-- A successful result of the wait loop always wraps a response-shaped
message, never an event. -/
theorem receiveWait_ok_is_resp :
    ∀ (arrivals : List Arrival) (m : DapMsg),
      receiveWait arrivals = some (.ok m) → ∃ r, m = DapMsg.resp r := by
  intro arrivals
  induction arrivals with
  | nil => intro m h; simp [receiveWait] at h
  | cons a rest ih =>
    intro m h
    cases a with
    | response r =>
      refine ⟨r, ?_⟩
      simpa [receiveWait] using h.symm
    | event e => cases e <;> exact ih m (by simpa [receiveWait] using h)
    | readErr e => simp [receiveWait] at h
    | ctxDone e => simp [receiveWait] at h

/-- C1: on the session actor (debugger/session.go `Session.Receive`),
after a successful request write, any number of event-shaped messages
delivered before the response — output, stopped, terminated, exited or
any other event — are each absorbed while the call keeps waiting; the
call returns only when a response arrives (returned as the result), a
read-loop error arrives (returned as an error), or the caller's context
is cancelled (its error returned); a successful result is never an
event. -/
theorem claim_C1_event_absorption (evs : List EventMsg) (rest : List Arrival)
    (m : RespMsg) (e : String) (arrivals : List Arrival) (res : DapMsg) :
    sessionReceive none (evs.map Arrival.event ++ Arrival.response m :: rest)
      = some (.ok (.resp m))
    ∧ sessionReceive none (evs.map Arrival.event ++ Arrival.readErr e :: rest)
      = some (.err e)
    ∧ sessionReceive none (evs.map Arrival.event ++ Arrival.ctxDone e :: rest)
      = some (.err e)
    ∧ (sessionReceive none arrivals = some (.ok res) →
        ∃ r, res = DapMsg.resp r) := by
  refine ⟨?_, ?_, ?_, ?_⟩
  · rw [show sessionReceive none (evs.map Arrival.event ++ Arrival.response m :: rest)
        = receiveWait (evs.map Arrival.event ++ Arrival.response m :: rest) from rfl,
      receiveWait_absorb_events]
    rfl
  · rw [show sessionReceive none (evs.map Arrival.event ++ Arrival.readErr e :: rest)
        = receiveWait (evs.map Arrival.event ++ Arrival.readErr e :: rest) from rfl,
      receiveWait_absorb_events]
    rfl
  · rw [show sessionReceive none (evs.map Arrival.event ++ Arrival.ctxDone e :: rest)
        = receiveWait (evs.map Arrival.event ++ Arrival.ctxDone e :: rest) from rfl,
      receiveWait_absorb_events]
    rfl
  · exact receiveWait_ok_is_resp arrivals res

/-- Witness for C1: a concrete call that sees an output event, a stopped
event and a terminated event before the continue response still returns
the continue response, and the implication conjunct applies to it. -/
theorem claim_C1_event_absorption_witness :
    sessionReceive none
      [Arrival.event (.output "hello"), Arrival.event (.stopped 1 "breakpoint"),
       Arrival.event .terminated, Arrival.response .continueResp]
      = some (.ok (.resp .continueResp))
    ∧ ∃ r, DapMsg.resp RespMsg.continueResp = DapMsg.resp r := by
  have h := claim_C1_event_absorption
    [.output "hello", .stopped 1 "breakpoint", .terminated] []
    .continueResp "e"
    [Arrival.event (.output "hello"), Arrival.event (.stopped 1 "breakpoint"),
     Arrival.event .terminated, Arrival.response .continueResp]
    (DapMsg.resp .continueResp)
  exact ⟨h.1, h.2.2.2 h.1⟩

/-- C9: the legacy root-package `Session.Receive` (src/unnamed/part_011,
the session type created by `StartDaemon`'s debugger actor) does not
absorb events: after a successful write, an event delivered while no
response is available is returned wrapped as a successful `DAPResponse`
— unlike the debugger-package wait loop, which would absorb it and keep
waiting. -/
theorem claim_C9_legacy_event_return (e : EventMsg) (rest : List Arrival) :
    legacyReceive none (Arrival.event e :: rest) = some (.ok (.event e))
    ∧ receiveWait (Arrival.event e :: rest) = receiveWait rest := by
  constructor
  · rfl
  · cases e <;> rfl

/-- C10: `SetFunctionBreakpoints` performs no input validation: for every
input list — the empty list included — it constructs and hands to the
session exactly one `setFunctionBreakpoints` request whose breakpoint
array has one converted entry per input element (the empty list is sent
as an empty array), in contrast to `SetBreakpoints`, which rejects an
empty list before any request exists. -/
theorem claim_C10_no_validation (fbs : List FunctionBreakpoint) :
    SetFunctionBreakpointsBuild fbs
      = { breakpoints := fbs.map toDapFunctionBreakpoint }
    ∧ SetFunctionBreakpointsRequests fbs
      = [{ breakpoints := fbs.map toDapFunctionBreakpoint }]
    ∧ SetFunctionBreakpointsRequests [] = [{ breakpoints := [] }]
    ∧ SetBreakpointsRequests [] = []
    ∧ SetBreakpointsBuild [] = Except.error "no breakpoints provided" := by
  exact ⟨rfl, rfl, rfl, rfl, rfl⟩

/-- C6 counterexample: `Next`'s unwrap maps an explicit backend error
response to the generic type-mismatch error: two error responses with
different backend messages and ids produce the identical helper error, so
the helper error does not include the backend's reported message or
numeric identifier. -/
theorem claim_C6_counterexample :
    nextUnwrap (.ok (.resp (.errorResp "oops" 42)))
      = nextUnwrap (.ok (.resp (.errorResp "a different failure" 7)))
    ∧ nextUnwrap (.ok (.resp (.errorResp "oops" 42)))
      = .error "unexpected response type: *dap.ErrorResponse"
    ∧ initializeUnwrap (.ok (.resp (.errorResp "oops" 42)))
      = .error "unexpected response type: *dap.ErrorResponse" := by
  exact ⟨rfl, rfl, rfl⟩

/-- C6 amended: only `Continue` and the updated launch/attach helpers
have a dedicated error-response arm carrying the backend's message and
numeric id; the other typed helpers — `Next`, `StepIn`, `StepOut`,
`Pause`, `InitializeSession`, `ConfigurationDone`, `SetBreakpoints` and
`SetFunctionBreakpoints` — map every unexpected message, the backend's
explicit error response included, to the generic type-mismatch error
naming only the concrete message type. -/
theorem claim_C6_amended (f : String) (i : Int) :
    continueUnwrap (.ok (.resp (.errorResp f i)))
      = .error ("continue failed: " ++ f ++ " (id: " ++ toString i ++ ")")
    ∧ launchUnwrap (.ok (.resp (.errorResp f i)))
      = .error ("launch failed: " ++ f ++ " (id: " ++ toString i ++ ")")
    ∧ attachUnwrap (.ok (.resp (.errorResp f i)))
      = .error ("attach failed: " ++ f ++ " (id: " ++ toString i ++ ")")
    ∧ nextUnwrap (.ok (.resp (.errorResp f i)))
      = .error "unexpected response type: *dap.ErrorResponse"
    ∧ stepInUnwrap (.ok (.resp (.errorResp f i)))
      = .error "unexpected response type: *dap.ErrorResponse"
    ∧ stepOutUnwrap (.ok (.resp (.errorResp f i)))
      = .error "unexpected response type: *dap.ErrorResponse"
    ∧ pauseUnwrap (.ok (.resp (.errorResp f i)))
      = .error "unexpected response type: *dap.ErrorResponse"
    ∧ initializeUnwrap (.ok (.resp (.errorResp f i)))
      = .error "unexpected response type: *dap.ErrorResponse"
    ∧ configDoneUnwrap (.ok (.resp (.errorResp f i)))
      = .error "unexpected response type: *dap.ErrorResponse"
    ∧ setBreakpointsUnwrap (.ok (.resp (.errorResp f i)))
      = .error "unexpected response type: *dap.ErrorResponse"
    ∧ setFunctionBreakpointsUnwrap (.ok (.resp (.errorResp f i)))
      = .error "unexpected response type: *dap.ErrorResponse"
    ∧ continueUnwrap (.ok (.resp .continueResp)) = .ok .continueResp
    ∧ nextUnwrap (.ok (.resp .nextResp)) = .ok .nextResp
    ∧ launchUnwrap (.ok (.resp .launchResp)) = .ok .launchResp
    ∧ attachUnwrap (.ok (.resp .attachResp)) = .ok .attachResp := by
  exact ⟨rfl, rfl, rfl, rfl, rfl, rfl, rfl, rfl, rfl, rfl, rfl, rfl, rfl,
    rfl, rfl⟩

/-! ## Read-loop lemmas -/

/-- Successfully decoded messages do not touch the error channel. -/
theorem readLoopRun_msgs_errors (msgs : List DapMsg) (rest : List DecodeOutcome) :
    (readLoopRun (msgs.map DecodeOutcome.msg ++ rest)).errors
      = (readLoopRun rest).errors := by
  induction msgs with
  | nil => rfl
  | cons m tl ih => cases m <;> simpa [readLoopRun] using ih

/-- After a decode failure the loop terminates: the suffix beyond the
failure is never processed. -/
theorem readLoopRun_fail_stops (msgs : List DapMsg) (e : String)
    (rest : List DecodeOutcome) :
    readLoopRun (msgs.map DecodeOutcome.msg ++ DecodeOutcome.fail e :: rest)
      = readLoopRun (msgs.map DecodeOutcome.msg ++ [DecodeOutcome.fail e]) := by
  induction msgs with
  | nil => rfl
  | cons m tl ih => cases m <;> simp [readLoopRun, ih]

/-- C7: a decode failing with end-of-stream terminates the read loop with
nothing pushed onto the error channel; a decode failing with any other
error pushes exactly the wrapped error onto the error channel and
terminates the loop (nothing after it is processed); and an in-flight
call receiving from the error channel returns exactly that error. -/
theorem claim_C7_decode_errors (msgs : List DapMsg) (e : String)
    (rest : List DecodeOutcome) (tail : List Arrival) :
    (readLoopRun (msgs.map DecodeOutcome.msg ++ DecodeOutcome.eof :: rest)).errors
      = []
    ∧ readLoopRun (msgs.map DecodeOutcome.msg ++ DecodeOutcome.fail e :: rest)
      = readLoopRun (msgs.map DecodeOutcome.msg ++ [DecodeOutcome.fail e])
    ∧ (readLoopRun (msgs.map DecodeOutcome.msg ++ DecodeOutcome.fail e :: rest)).errors
      = ["error reading DAP message: " ++ e]
    ∧ sessionReceive none
        (Arrival.readErr ("error reading DAP message: " ++ e) :: tail)
      = some (.err ("error reading DAP message: " ++ e)) := by
  refine ⟨?_, readLoopRun_fail_stops msgs e rest, ?_, rfl⟩
  · rw [readLoopRun_msgs_errors]
    rfl
  · rw [readLoopRun_msgs_errors]
    rfl

/-! ## Breakpoint-helper lemmas -/

/-- C4: `SetBreakpoints` rejects an empty breakpoint list with the error
`no breakpoints provided` and a multi-file list with the error
`all breakpoints must be for the same file`; in both cases the failure
happens during validation, before any request exists, so nothing is
handed to the session actor. -/
theorem claim_C4_input_validation (b0 : BreakpointLocation)
    (rest : List BreakpointLocation) (h : ∃ bp ∈ rest, bp.file ≠ b0.file) :
    SetBreakpointsBuild [] = Except.error "no breakpoints provided"
    ∧ SetBreakpointsRequests [] = []
    ∧ SetBreakpointsBuild (b0 :: rest)
      = Except.error "all breakpoints must be for the same file"
    ∧ SetBreakpointsRequests (b0 :: rest) = [] := by
  have hall : rest.all (fun bp => bp.file == b0.file) = false := by
    obtain ⟨bp, hmem, hne⟩ := h
    exact List.all_eq_false.mpr ⟨bp, hmem, by simpa using hne⟩
  refine ⟨rfl, rfl, ?_, ?_⟩
  · simp [SetBreakpointsBuild, hall]
  · simp [SetBreakpointsRequests, SetBreakpointsBuild, hall]

/-- Witness for C4: two breakpoints in two distinct files are rejected. -/
theorem claim_C4_input_validation_witness :
    (∃ bp ∈ [(⟨"/path/to/file2.go", 20, 0, "", "", ""⟩ : BreakpointLocation)],
        bp.file ≠ "/path/to/file1.go")
    ∧ SetBreakpointsRequests
        [(⟨"/path/to/file1.go", 10, 0, "", "", ""⟩ : BreakpointLocation),
         ⟨"/path/to/file2.go", 20, 0, "", "", ""⟩] = [] := by
  have hex : ∃ bp ∈ [(⟨"/path/to/file2.go", 20, 0, "", "", ""⟩ :
      BreakpointLocation)], bp.file ≠ "/path/to/file1.go" :=
    ⟨_, List.mem_singleton.mpr rfl, by decide⟩
  exact ⟨hex,
    (claim_C4_input_validation ⟨"/path/to/file1.go", 10, 0, "", "", ""⟩
      [⟨"/path/to/file2.go", 20, 0, "", "", ""⟩] hex).2.2.2⟩

/-- C5: for a non-empty single-file list, the constructed request is a
pure function of the current call's arguments alone: its source path is
the first element's file and its breakpoint array has exactly one entry
per input element, in order, each preserving line, column, condition,
hit condition and log message; hence a second call for the same file
yields a request reflecting only the new locations, with no client-side
merge of earlier calls. -/
theorem claim_C5_full_replace (b0 : BreakpointLocation)
    (rest : List BreakpointLocation) (h : ∀ bp ∈ rest, bp.file = b0.file) :
    SetBreakpointsBuild (b0 :: rest)
      = Except.ok { sourcePath := b0.file,
                    breakpoints := (b0 :: rest).map toSourceBreakpoint }
    ∧ SetBreakpointsRequests (b0 :: rest)
      = [{ sourcePath := b0.file,
           breakpoints := (b0 :: rest).map toSourceBreakpoint }]
    ∧ (∀ bp : BreakpointLocation,
        (toSourceBreakpoint bp).line = bp.line
        ∧ (toSourceBreakpoint bp).column = bp.column
        ∧ (toSourceBreakpoint bp).condition = bp.condition
        ∧ (toSourceBreakpoint bp).hitCondition = bp.hitCondition
        ∧ (toSourceBreakpoint bp).logMessage = bp.logMessage) := by
  have hall : rest.all (fun bp => bp.file == b0.file) = true := by
    simp only [List.all_eq_true, beq_iff_eq]
    exact h
  refine ⟨?_, ?_, fun bp => ⟨rfl, rfl, rfl, rfl, rfl⟩⟩
  · simp [SetBreakpointsBuild, hall]
  · simp [SetBreakpointsRequests, SetBreakpointsBuild, hall]

/-- Witness for C5, exercising the replace scenario of the spec: after
breakpoints at lines 10 and 20 of file X, a second call for line 30 alone
produces a request carrying only line 30. -/
theorem claim_C5_full_replace_witness :
    (∀ bp ∈ ([] : List BreakpointLocation), bp.file = "X")
    ∧ SetSourceBreakpointsBuild "X" [30]
      = Except.ok { sourcePath := "X",
                    breakpoints := [{ line := 30, column := 0, condition := "",
                                      hitCondition := "", logMessage := "" }] } := by
  refine ⟨by simp, ?_⟩
  have h := claim_C5_full_replace
    { file := "X", line := 30, column := 0, condition := "",
      hitCondition := "", logMessage := "" } [] (by simp)
  exact h.1

/-! ## Launch-mode theorems -/

/-- C3 counterexample: the target path `dir__debug_bin/main.go` ends in
`.go` — it ends in no pre-built-binary suffix and is not
`_test.go`-suffixed, so the claim assigns it the debug mode — yet the
mode derivation classifies it as exec, because the code tests
`strings.Contains(program, "__debug_bin")`, not a suffix. -/
theorem claim_C3_counterexample :
    launchMode "dir__debug_bin/main.go" [] false = "exec"
    ∧ claimedLaunchMode "dir__debug_bin/main.go" [] = "debug"
    ∧ (LaunchProgramArgs
        ⟨"demo", "dir__debug_bin/main.go", [], [], "", false, []⟩ false).mode
      = "exec" := by
  exact ⟨by decide, by decide, by decide⟩

/-- C3 amended: the mode-deriving `LaunchProgram` sets the mode to exec
for a path ending in `.test` or containing `__debug_bin` anywhere;
otherwise to test for a `_test.go`-suffixed path or a first argument
containing `-test.`; otherwise, for a path not ending in `.go`, to exec
exactly when the file stats as executable; and to debug in every
remaining case.  Whenever the derived mode is not exec and the caller
supplied no flag containing `-gcflags` or `-N -l`, the payload's build
flags are the auto-injected `-gcflags all=-N -l` followed by the
caller's flags; with such a flag supplied they are passed unchanged. -/
theorem claim_C3_amended (config : LaunchConfig) (stat : Bool) :
    ((strEndsWith config.program ".test"
        || strContains config.program "__debug_bin") = true →
      launchMode config.program config.args stat = "exec")
    ∧ ((strEndsWith config.program ".test"
        || strContains config.program "__debug_bin") = false →
       (strEndsWith config.program "_test.go"
        || firstArgHasTestFlag config.args) = true →
      launchMode config.program config.args stat = "test")
    ∧ ((strEndsWith config.program ".test"
        || strContains config.program "__debug_bin") = false →
       (strEndsWith config.program "_test.go"
        || firstArgHasTestFlag config.args) = false →
       strEndsWith config.program ".go" = true →
      launchMode config.program config.args stat = "debug")
    ∧ ((strEndsWith config.program ".test"
        || strContains config.program "__debug_bin") = false →
       (strEndsWith config.program "_test.go"
        || firstArgHasTestFlag config.args) = false →
       strEndsWith config.program ".go" = false →
      launchMode config.program config.args stat
        = (if stat then "exec" else "debug"))
    ∧ (LaunchProgramArgs config stat).mode
      = launchMode config.program config.args stat
    ∧ (launchMode config.program config.args stat ≠ "exec" →
       hasDebugFlags config.buildFlags = false →
      (LaunchProgramArgs config stat).buildFlags
        = some (["-gcflags", "all=-N -l"] ++ config.buildFlags))
    ∧ (launchMode config.program config.args stat ≠ "exec" →
       hasDebugFlags config.buildFlags = true →
      (LaunchProgramArgs config stat).buildFlags
        = some config.buildFlags) := by
  refine ⟨?_, ?_, ?_, ?_, rfl, ?_, ?_⟩
  · intro h1
    simp only [launchMode, Bool.or_eq_true] at h1 ⊢
    rw [if_pos h1]
  · intro h1 h2
    simp only [Bool.or_eq_false_iff] at h1
    simp only [launchMode, Bool.or_eq_true, h1.1, h1.2, Bool.false_or,
      Bool.or_false, Bool.or_eq_true] at h2 ⊢
    simp [h1.1, h1.2, h2]
  · intro h1 h2 h3
    simp only [Bool.or_eq_false_iff] at h1 h2
    simp [launchMode, h1.1, h1.2, h2.1, h2.2, h3]
  · intro h1 h2 h3
    simp only [Bool.or_eq_false_iff] at h1 h2
    simp [launchMode, h1.1, h1.2, h2.1, h2.2, h3]
  · intro h1 h2
    have hb : (launchMode config.program config.args stat == "exec") = false := by
      simpa using h1
    simp [LaunchProgramArgs, launchBuildFlags, hb, h2]
  · intro h1 h2
    have hb : (launchMode config.program config.args stat == "exec") = false := by
      simpa using h1
    have hne : config.buildFlags ≠ [] := by
      intro h0
      rw [h0] at h2
      simp [hasDebugFlags] at h2
    simp [LaunchProgramArgs, launchBuildFlags, hb, h2, hne,
      List.length_pos.mpr hne]

/-- Witness for C3's amended theorem: a plain `.go` path with no build
flags is launched in debug mode with the auto-injected optimization
flags. -/
theorem claim_C3_amended_witness :
    (strEndsWith "cmd/server/main.go" ".test"
      || strContains "cmd/server/main.go" "__debug_bin") = false
    ∧ (strEndsWith "cmd/server/main.go" "_test.go"
      || firstArgHasTestFlag []) = false
    ∧ strEndsWith "cmd/server/main.go" ".go" = true
    ∧ launchMode "cmd/server/main.go" [] false = "debug"
    ∧ hasDebugFlags [] = false
    ∧ (LaunchProgramArgs ⟨"demo", "cmd/server/main.go", [], [], "", false, []⟩
        false).buildFlags = some ["-gcflags", "all=-N -l"] := by
  have h := claim_C3_amended
    ⟨"demo", "cmd/server/main.go", [], [], "", false, []⟩ false
  refine ⟨by decide, by decide, by decide, ?_, by decide, ?_⟩
  · exact h.2.2.1 (by decide) (by decide) (by decide)
  · have := h.2.2.2.2.2.1
      (by rw [h.2.2.1 (by decide) (by decide) (by decide)]; decide)
      (by decide)
    simpa using this

/-! ## Retry-helper lemmas -/

/-- One iteration of the retry loop, unfolded. -/
theorem retryLoop_succ (op : Nat → Option String) (dc ds : Nat → Bool)
    (M : Nat) (maxD mult : ℚ) (r attempt : Nat) (delay : ℚ)
    (lastErr : Option String) :
    retryLoop op dc ds M maxD mult (r + 1) attempt delay lastErr
      = if dc attempt then { result := .ctxError, calls := 0, sleeps := [] }
        else
          match op attempt with
          | none => { result := .okR, calls := 1, sleeps := [] }
          | some e =>
            if r = 0 then
              { result := .exhausted M (some e), calls := 1, sleeps := [] }
            else if ds attempt then
              { result := .ctxError, calls := 1, sleeps := [] }
            else
              let t := retryLoop op dc ds M maxD mult r (attempt + 1)
                (nextDelay maxD mult delay) (some e)
              { result := t.result, calls := t.calls + 1,
                sleeps := delay :: t.sleeps } := rfl

/-- The loop never invokes the operation more often than it has
iterations left. -/
theorem retryLoop_calls_le (op : Nat → Option String) (dc ds : Nat → Bool)
    (M : Nat) (maxD mult : ℚ) :
    ∀ (remaining attempt : Nat) (delay : ℚ) (lastErr : Option String),
      (retryLoop op dc ds M maxD mult remaining attempt delay lastErr).calls
        ≤ remaining := by
  intro remaining
  induction remaining with
  | zero => intro attempt delay lastErr; simp [retryLoop]
  | succ r ih =>
    intro attempt delay lastErr
    rw [retryLoop_succ]
    by_cases hdc : dc attempt
    · simp [hdc]
    · cases hop : op attempt with
      | none => simp [hdc]
      | some e =>
        by_cases hr : r = 0
        · simp [hdc, hr]
        · by_cases hds : ds attempt
          · simp [hdc, hr, hds]
          · have hrec := ih (attempt + 1) (nextDelay maxD mult delay) (some e)
            simp only [hdc, if_false, hr, hds, Bool.false_eq_true]
            simpa using Nat.succ_le_succ hrec

/-- When every attempt in the window fails and the context never fires,
the loop runs the whole window, sleeping the backoff sequence, and ends
exhausted with the last failure. -/
theorem retryLoop_all_fail (op : Nat → Option String) (dc ds : Nat → Bool)
    (M : Nat) (maxD mult : ℚ) (f : Nat → String)
    (hdc : ∀ j, dc j = false) (hds : ∀ j, ds j = false) :
    ∀ (remaining attempt : Nat) (delay : ℚ) (lastErr : Option String),
      (∀ j, attempt ≤ j → j < attempt + remaining → op j = some (f j)) →
      retryLoop op dc ds M maxD mult remaining attempt delay lastErr
        = { result := .exhausted M
              (if remaining = 0 then lastErr
               else some (f (attempt + remaining - 1))),
            calls := remaining,
            sleeps := delaySeq maxD mult delay (remaining - 1) } := by
  intro remaining
  induction remaining with
  | zero =>
    intro attempt delay lastErr hop
    simp [retryLoop, delaySeq]
  | succ r ih =>
    intro attempt delay lastErr hop
    have hopa : op attempt = some (f attempt) := hop attempt le_rfl (by omega)
    rw [retryLoop_succ, hdc attempt, hopa]
    rcases Nat.eq_zero_or_pos r with hr | hrpos
    · subst hr
      simp [delaySeq]
    · have hrne : r ≠ 0 := by omega
      have ihres := ih (attempt + 1) (nextDelay maxD mult delay)
        (some (f attempt)) (fun j h1 h2 => hop j (by omega) (by omega))
      rw [if_neg (by exact Bool.false_ne_true)]
      simp only [if_neg hrne, hds attempt, Bool.false_eq_true, if_false]
      rw [ihres]
      simp only [if_neg hrne, Nat.succ_ne_zero, if_false, Nat.add_sub_cancel]
      obtain ⟨r0, rfl⟩ : ∃ r0, r = r0 + 1 := ⟨r - 1, by omega⟩
      have harg : attempt + 1 + (r0 + 1) - 1 = attempt + (r0 + 1 + 1) - 1 := by
        omega
      simp only [delaySeq, Nat.add_sub_cancel, harg]

/-- When the attempts before `K` fail, attempt `K` succeeds and the
context never fires, the loop returns success after exactly
`K - attempt + 1` invocations, sleeping the backoff sequence between
attempts. -/
theorem retryLoop_success (op : Nat → Option String) (dc ds : Nat → Bool)
    (M : Nat) (maxD mult : ℚ) (f : Nat → String)
    (hdc : ∀ j, dc j = false) (hds : ∀ j, ds j = false) :
    ∀ (remaining attempt K : Nat) (delay : ℚ) (lastErr : Option String),
      attempt ≤ K → K < attempt + remaining →
      (∀ j, attempt ≤ j → j < K → op j = some (f j)) →
      op K = none →
      retryLoop op dc ds M maxD mult remaining attempt delay lastErr
        = { result := .okR, calls := K - attempt + 1,
            sleeps := delaySeq maxD mult delay (K - attempt) } := by
  intro remaining
  induction remaining with
  | zero => intro attempt K delay lastErr h1 h2 hop hK; omega
  | succ r ih =>
    intro attempt K delay lastErr h1 h2 hop hK
    rw [retryLoop_succ, hdc attempt]
    rw [if_neg (by exact Bool.false_ne_true)]
    by_cases heq : attempt = K
    · subst heq
      rw [hK]
      simp [delaySeq]
    · have hlt : attempt < K := by omega
      have hopa : op attempt = some (f attempt) := hop attempt le_rfl hlt
      have hrne : r ≠ 0 := by omega
      rw [hopa]
      simp only [if_neg hrne, hds attempt, Bool.false_eq_true, if_false]
      have ihres := ih (attempt + 1) K (nextDelay maxD mult delay)
        (some (f attempt)) (by omega) (by omega)
        (fun j hj1 hj2 => hop j (by omega) hj2) hK
      rw [ihres]
      obtain ⟨d0, hd0⟩ : ∃ d0, K - attempt = d0 + 1 :=
        ⟨K - attempt - 1, by omega⟩
      have hd1 : K - (attempt + 1) = d0 := by omega
      rw [hd0, hd1]
      simp [delaySeq]

/-! ## Factory lemmas -/

/-- A factory run advances the counter by one per successful creation and
registers exactly the identifiers `session-(start+1), session-(start+2),
…` in order. -/
theorem factoryRun_spec (evs : List (DebuggerCmdKind × Except String Unit)) :
    ∀ st : FactoryState,
      factoryRun st evs
        = ({ nextSessionID := st.nextSessionID + successCount evs },
           (List.range (successCount evs)).map
             (fun i => mkSessionId (st.nextSessionID + i + 1))) := by
  induction evs with
  | nil => intro st; simp [factoryRun, successCount]
  | cons ev rest ih =>
    intro st
    obtain ⟨cmd, ns⟩ := ev
    have hlist : ∀ n : Nat,
        mkSessionId (n + 1) :: (List.range (successCount rest)).map
          (fun i => mkSessionId (n + 1 + i + 1))
        = (List.range (successCount rest + 1)).map
          (fun i => mkSessionId (n + i + 1)) := by
      intro n
      rw [List.range_succ_eq_map, List.map_cons, List.map_map]
      congr 1
      exact List.map_congr_left fun i _ => by
        show mkSessionId (n + 1 + i + 1) = mkSessionId (n + (i + 1) + 1)
        congr 1
        omega
    cases cmd with
    | startDebugger =>
      cases ns with
      | error e =>
        simp [factoryRun, debuggerReceive, successCount, ih]
      | ok u =>
        simp only [factoryRun, debuggerReceive, successCount, ih,
          List.nil_append]
        apply Prod.ext
        · show FactoryState.mk _ = FactoryState.mk _
          congr 1
          omega
        · show mkSessionId (st.nextSessionID + 1) ::
              (List.range (successCount rest)).map
                (fun i => mkSessionId (st.nextSessionID + 1 + i + 1))
            = (List.range (1 + successCount rest)).map
                (fun i => mkSessionId (st.nextSessionID + i + 1))
          rw [hlist st.nextSessionID,
            Nat.add_comm 1 (successCount rest)]
    | createSession =>
      cases ns with
      | error e =>
        simp [factoryRun, debuggerReceive, successCount, ih]
      | ok u =>
        simp only [factoryRun, debuggerReceive, successCount, ih,
          List.nil_append]
        apply Prod.ext
        · show FactoryState.mk _ = FactoryState.mk _
          congr 1
          omega
        · show mkSessionId (st.nextSessionID + 1) ::
              (List.range (successCount rest)).map
                (fun i => mkSessionId (st.nextSessionID + 1 + i + 1))
            = (List.range (1 + successCount rest)).map
                (fun i => mkSessionId (st.nextSessionID + i + 1))
          rw [hlist st.nextSessionID,
            Nat.add_comm 1 (successCount rest)]
    | unknownCmd tn =>
      simp [factoryRun, debuggerReceive, successCount, ih]

/-- C8: over any command sequence handled by one factory instance, each
successful creation increments the counter by one and registers the
fresh identifier `session-N` with `N` the incremented counter, so the
registered identifiers are `session-(start+1), session-(start+2), …` in
order — pairwise distinct with strictly increasing numeric components —
while a failed creation (and an unknown command) leaves the counter
unchanged and registers nothing. -/
theorem claim_C8_session_identifiers (st : FactoryState)
    (evs : List (DebuggerCmdKind × Except String Unit)) (e : String) :
    (factoryRun st evs).2
      = (List.range (successCount evs)).map
          (fun i => mkSessionId (st.nextSessionID + i + 1))
    ∧ (factoryRun st evs).1.nextSessionID
      = st.nextSessionID + successCount evs
    ∧ (factoryRun st evs).2.Pairwise (· ≠ ·)
    ∧ debuggerReceive st .createSession (.ok ())
      = { state := { nextSessionID := st.nextSessionID + 1 },
          resp := .created (mkSessionId (st.nextSessionID + 1)),
          registered := [mkSessionId (st.nextSessionID + 1)] }
    ∧ debuggerReceive st .startDebugger (.ok ())
      = { state := { nextSessionID := st.nextSessionID + 1 },
          resp := .created (mkSessionId (st.nextSessionID + 1)),
          registered := [mkSessionId (st.nextSessionID + 1)] }
    ∧ debuggerReceive st .createSession (.error e)
      = { state := st,
          resp := .errResp ("could not create session: " ++ e),
          registered := [] }
    ∧ debuggerReceive st .startDebugger (.error e)
      = { state := st,
          resp := .errResp ("could not create session: " ++ e),
          registered := [] } := by
  refine ⟨?_, ?_, ?_, rfl, rfl, rfl, rfl⟩
  · rw [factoryRun_spec]
  · rw [factoryRun_spec]
  · rw [factoryRun_spec]
    have hnd : (List.range (successCount evs)).Pairwise (· ≠ ·) :=
      List.nodup_range (successCount evs)
    refine List.Pairwise.map _ (fun a b hab heq => hab ?_) hnd
    have h2 := mkSessionId_injective heq
    omega

/-- When the attempts before `k` fail with no cancellation and the
pre-attempt context check of attempt `k` observes a cancelled context,
the loop returns the context error at once: `k - attempt` invocations
(attempt `k` itself never runs) and `k - attempt` completed sleeps. -/
theorem retryLoop_cancel_at_check (op : Nat → Option String)
    (dc ds : Nat → Bool) (M : Nat) (maxD mult : ℚ) (f : Nat → String) :
    ∀ (remaining attempt k : Nat) (delay : ℚ) (lastErr : Option String),
      attempt ≤ k → k < attempt + remaining →
      (∀ j, attempt ≤ j → j < k → op j = some (f j)) →
      (∀ j, attempt ≤ j → j < k → dc j = false) →
      (∀ j, attempt ≤ j → j < k → ds j = false) →
      dc k = true →
      retryLoop op dc ds M maxD mult remaining attempt delay lastErr
        = { result := .ctxError, calls := k - attempt,
            sleeps := delaySeq maxD mult delay (k - attempt) } := by
  intro remaining
  induction remaining with
  | zero => intro attempt k delay lastErr h1 h2 hop hdc hds hk; omega
  | succ r ih =>
    intro attempt k delay lastErr h1 h2 hop hdc hds hk
    rw [retryLoop_succ]
    by_cases heq : attempt = k
    · subst heq
      rw [hk]
      simp [delaySeq]
    · have hlt : attempt < k := by omega
      rw [hdc attempt le_rfl hlt, if_neg (by exact Bool.false_ne_true),
        hop attempt le_rfl hlt]
      have hrne : r ≠ 0 := by omega
      simp only [if_neg hrne, hds attempt le_rfl hlt, Bool.false_eq_true,
        if_false]
      have ihres := ih (attempt + 1) k (nextDelay maxD mult delay)
        (some (f attempt)) (by omega) (by omega)
        (fun j hj1 hj2 => hop j (by omega) hj2)
        (fun j hj1 hj2 => hdc j (by omega) hj2)
        (fun j hj1 hj2 => hds j (by omega) hj2) hk
      rw [ihres]
      obtain ⟨d0, hd0⟩ : ∃ d0, k - attempt = d0 + 1 :=
        ⟨k - attempt - 1, by omega⟩
      have hd1 : k - (attempt + 1) = d0 := by omega
      rw [hd0, hd1]
      simp [delaySeq]

/-- When the attempts up to and including `k` fail, no earlier
suspension saw a cancelled context, `k` is not the final attempt, and the
context fires during the backoff sleep following attempt `k`, the loop
returns the context error at once: `k - attempt + 1` invocations and only
the `k - attempt` earlier sleeps completed. -/
theorem retryLoop_cancel_in_sleep (op : Nat → Option String)
    (dc ds : Nat → Bool) (M : Nat) (maxD mult : ℚ) (f : Nat → String) :
    ∀ (remaining attempt k : Nat) (delay : ℚ) (lastErr : Option String),
      attempt ≤ k → k + 1 < attempt + remaining →
      (∀ j, attempt ≤ j → j ≤ k → op j = some (f j)) →
      (∀ j, attempt ≤ j → j ≤ k → dc j = false) →
      (∀ j, attempt ≤ j → j < k → ds j = false) →
      ds k = true →
      retryLoop op dc ds M maxD mult remaining attempt delay lastErr
        = { result := .ctxError, calls := k - attempt + 1,
            sleeps := delaySeq maxD mult delay (k - attempt) } := by
  intro remaining
  induction remaining with
  | zero => intro attempt k delay lastErr h1 h2 hop hdc hds hk; omega
  | succ r ih =>
    intro attempt k delay lastErr h1 h2 hop hdc hds hk
    rw [retryLoop_succ]
    rw [hdc attempt le_rfl h1, if_neg (by exact Bool.false_ne_true),
      hop attempt le_rfl h1]
    have hrne : r ≠ 0 := by omega
    by_cases heq : attempt = k
    · subst heq
      simp only [if_neg hrne, hk, if_true, Nat.sub_self, delaySeq]
    · have hlt : attempt < k := by omega
      simp only [if_neg hrne, hds attempt le_rfl hlt, Bool.false_eq_true,
        if_false]
      have ihres := ih (attempt + 1) k (nextDelay maxD mult delay)
        (some (f attempt)) (by omega) (by omega)
        (fun j hj1 hj2 => hop j (by omega) hj2)
        (fun j hj1 hj2 => hdc j (by omega) hj2)
        (fun j hj1 hj2 => hds j (by omega) hj2) hk
      rw [ihres]
      obtain ⟨d0, hd0⟩ : ∃ d0, k - attempt = d0 + 1 :=
        ⟨k - attempt - 1, by omega⟩
      have hd1 : k - (attempt + 1) = d0 := by omega
      rw [hd0, hd1]
      simp [delaySeq]

/-- C2: `RetryWithBackoff` invokes its operation at most `MaxAttempts`
times; with no cancellation it returns success immediately after the
first succeeding attempt `K`, having invoked the operation exactly `K`
times and slept the backoff sequence between attempts; if every attempt
fails it invokes the operation exactly `MaxAttempts` times, sleeps the
backoff sequence (each delay multiplied by the multiplier and capped at
`MaxDelay`), and returns the exhaustion error wrapping the last failure,
whose text reports the `MaxAttempts` attempt count; a context observed
cancelled at the pre-attempt check of any reached attempt, or during any
reached backoff sleep, makes it return the context error immediately. -/
theorem claim_C2_retry_with_backoff (cfg : RetryConfig)
    (op : Nat → Option String) (f : Nat → String) (dc ds : Nat → Bool)
    (K : Nat) :
    (RetryWithBackoff cfg op dc ds).calls ≤ cfg.maxAttempts
    ∧ ((∀ j, dc j = false) → (∀ j, ds j = false) →
       1 ≤ K → K ≤ cfg.maxAttempts →
       (∀ j, 1 ≤ j → j < K → op j = some (f j)) → op K = none →
       RetryWithBackoff cfg op dc ds
         = { result := .okR, calls := K,
             sleeps := delaySeq cfg.maxDelay cfg.multiplier
               cfg.initialDelay (K - 1) })
    ∧ ((∀ j, dc j = false) → (∀ j, ds j = false) → 1 ≤ cfg.maxAttempts →
       (∀ j, 1 ≤ j → j ≤ cfg.maxAttempts → op j = some (f j)) →
       RetryWithBackoff cfg op dc ds
         = { result := .exhausted cfg.maxAttempts (some (f cfg.maxAttempts)),
             calls := cfg.maxAttempts,
             sleeps := delaySeq cfg.maxDelay cfg.multiplier
               cfg.initialDelay (cfg.maxAttempts - 1) })
    ∧ retryErrText cfg.maxAttempts (some (f cfg.maxAttempts))
        = "operation failed after " ++ toString cfg.maxAttempts
            ++ " attempts, last error: " ++ f cfg.maxAttempts
    ∧ (∀ d : ℚ, nextDelay cfg.maxDelay cfg.multiplier d
        = if d * cfg.multiplier > cfg.maxDelay then cfg.maxDelay
          else d * cfg.multiplier)
    ∧ (1 ≤ K → K ≤ cfg.maxAttempts →
       (∀ j, 1 ≤ j → j < K → op j = some (f j)) →
       (∀ j, 1 ≤ j → j < K → dc j = false) →
       (∀ j, 1 ≤ j → j < K → ds j = false) →
       dc K = true →
       RetryWithBackoff cfg op dc ds
         = { result := .ctxError, calls := K - 1,
             sleeps := delaySeq cfg.maxDelay cfg.multiplier
               cfg.initialDelay (K - 1) })
    ∧ (1 ≤ K → K + 1 ≤ cfg.maxAttempts →
       (∀ j, 1 ≤ j → j ≤ K → op j = some (f j)) →
       (∀ j, 1 ≤ j → j ≤ K → dc j = false) →
       (∀ j, 1 ≤ j → j < K → ds j = false) →
       ds K = true →
       RetryWithBackoff cfg op dc ds
         = { result := .ctxError, calls := K,
             sleeps := delaySeq cfg.maxDelay cfg.multiplier
               cfg.initialDelay (K - 1) }) := by
  refine ⟨retryLoop_calls_le op dc ds cfg.maxAttempts cfg.maxDelay
      cfg.multiplier cfg.maxAttempts 1 cfg.initialDelay none,
    ?_, ?_, rfl, fun d => rfl, ?_, ?_⟩
  · intro hdc hds hK1 hK2 hop hK
    have h := retryLoop_success op dc ds cfg.maxAttempts cfg.maxDelay
      cfg.multiplier f hdc hds cfg.maxAttempts 1 K cfg.initialDelay none
      hK1 (by omega) hop hK
    rw [RetryWithBackoff, h]
    have hKs : K - 1 + 1 = K := by omega
    rw [hKs]
  · intro hdc hds hM hop
    have h := retryLoop_all_fail op dc ds cfg.maxAttempts cfg.maxDelay
      cfg.multiplier f hdc hds cfg.maxAttempts 1 cfg.initialDelay none
      (fun j h1 h2 => hop j h1 (by omega))
    rw [RetryWithBackoff, h]
    have hMne : ¬ cfg.maxAttempts = 0 := by omega
    have hMs : 1 + cfg.maxAttempts - 1 = cfg.maxAttempts := by omega
    rw [if_neg hMne, hMs]
  · intro hK1 hK2 hop hdc hds hk
    have h := retryLoop_cancel_at_check op dc ds cfg.maxAttempts
      cfg.maxDelay cfg.multiplier f cfg.maxAttempts 1 K cfg.initialDelay
      none hK1 (by omega) hop hdc hds hk
    rw [RetryWithBackoff, h]
  · intro hK1 hK2 hop hdc hds hk
    have h := retryLoop_cancel_in_sleep op dc ds cfg.maxAttempts
      cfg.maxDelay cfg.multiplier f cfg.maxAttempts 1 K cfg.initialDelay
      none hK1 (by omega) hop hdc hds hk
    rw [RetryWithBackoff, h]
    have hKs : K - 1 + 1 = K := by omega
    rw [hKs]

/-- Witness for C2: with the default configuration an operation failing
twice then succeeding returns success after three invocations with two
backoff sleeps; an always-failing operation under a three-attempt
configuration exhausts after exactly three invocations with the backoff
sleeps; a context cancelled at the first check or during the first sleep
aborts immediately. -/
theorem claim_C2_retry_with_backoff_witness :
    RetryWithBackoff DefaultRetryConfig
        (fun k => if k < 3 then some "dial refused" else none)
        (fun _ => false) (fun _ => false)
      = { result := .okR, calls := 3, sleeps := [10000000, 20000000] }
    ∧ RetryWithBackoff ⟨3, 50, 120, 2⟩ (fun _ => some "dial refused")
        (fun _ => false) (fun _ => false)
      = { result := .exhausted 3 (some "dial refused"), calls := 3,
          sleeps := [50, 100] }
    ∧ retryErrText 3 (some "dial refused")
      = "operation failed after 3 attempts, last error: dial refused"
    ∧ RetryWithBackoff DefaultRetryConfig (fun _ => some "x")
        (fun _ => true) (fun _ => false)
      = { result := .ctxError, calls := 0, sleeps := [] }
    ∧ RetryWithBackoff DefaultRetryConfig (fun _ => some "x")
        (fun _ => false) (fun _ => true)
      = { result := .ctxError, calls := 1, sleeps := [] } := by
  refine ⟨?_, ?_, rfl, ?_, ?_⟩
  · have h := (claim_C2_retry_with_backoff DefaultRetryConfig
      (fun k => if k < 3 then some "dial refused" else none)
      (fun _ => "dial refused") (fun _ => false) (fun _ => false) 3).2.1
      (fun j => rfl) (fun j => rfl) (by omega) (by decide)
      (fun j h1 h2 => by interval_cases j <;> rfl) (by rfl)
    rw [h]
    norm_num [DefaultRetryConfig, delaySeq, nextDelay]
  · have h := (claim_C2_retry_with_backoff ⟨3, 50, 120, 2⟩
      (fun _ => some "dial refused") (fun _ => "dial refused")
      (fun _ => false) (fun _ => false) 1).2.2.1
      (fun j => rfl) (fun j => rfl) (by decide) (fun j h1 h2 => rfl)
    rw [h]
    norm_num [delaySeq, nextDelay]
  · have h := (claim_C2_retry_with_backoff DefaultRetryConfig
      (fun _ => some "x") (fun _ => "x") (fun _ => true) (fun _ => false)
      1).2.2.2.2.2.1 (by omega) (by decide)
      (fun j h1 h2 => absurd (lt_of_lt_of_le h2 h1) (by omega))
      (fun j h1 h2 => absurd (lt_of_lt_of_le h2 h1) (by omega))
      (fun j h1 h2 => absurd (lt_of_lt_of_le h2 h1) (by omega)) rfl
    rw [h]
    simp [delaySeq]
  · have h := (claim_C2_retry_with_backoff DefaultRetryConfig
      (fun _ => some "x") (fun _ => "x") (fun _ => false) (fun _ => true)
      1).2.2.2.2.2.2 (by omega) (by decide)
      (fun j h1 h2 => rfl) (fun j h1 h2 => rfl)
      (fun j h1 h2 => absurd (lt_of_lt_of_le h2 h1) (by omega)) rfl
    rw [h]
    simp [delaySeq]

/-- The older `LaunchProgram` (src/debugger/dap_api.go lines 53-117)
performs no mode derivation at all: its payload mode is the literal
`"debug"` for every configuration and the caller's build flags pass
through without injection. -/
theorem LaunchProgramArgsLegacy_mode (config : LaunchConfig) :
    (LaunchProgramArgsLegacy config).mode = "debug"
    ∧ (LaunchProgramArgsLegacy config).buildFlags
      = (if config.buildFlags.length > 0 then some config.buildFlags
         else none) := ⟨rfl, rfl⟩
